import Mathlib

/-!
Verification of the GDDS streaming client sample (samples/gdds_client.py).

The Python sample is embedded shallowly:

* pure helpers (the vehicle-type table, the millisecond-epoch to UTC
  conversion) become Lean functions;
* the streaming receive loop becomes a recursive function over the list of
  messages the server will push, together with the terminal event of the
  stream (normal end or a raised RPC error);
* the shared stop flag, settable concurrently from other threads, is
  modelled as a schedule `stopAt : Nat -> Bool` giving the value the flag
  check reads before delivering the i-th pulled record;
* fallible unary calls (Terminate) take their transport result as an
  explicit `Except RpcError Bool` argument;
* Python exceptions that escape to the caller become explicit outcome
  constructors; timestamps are converted with exact integer arithmetic
  (the Python float division by 1000.0 is exact at every millisecond value
  the claims touch).
-/

namespace Gdds

/-- The gRPC status codes, as in grpc.StatusCode. -/
inductive StatusCode where
  | ok
  | cancelled
  | unknown
  | invalidArgument
  | deadlineExceeded
  | notFound
  | alreadyExists
  | permissionDenied
  | resourceExhausted
  | failedPrecondition
  | aborted
  | outOfRange
  | unimplemented
  | internal
  | unavailable
  | dataLoss
  | unauthenticated
deriving DecidableEq, Repr

/-- A grpc.RpcError: a status code plus detail text. -/
structure RpcError where
  code : StatusCode
  details : String
deriving DecidableEq, Repr

/- The VehicleType table of the sample: codes 0..4 name the five vehicle
types; dict get with default maps every other code to UNKNOWN. -/
namespace VehicleType

def UNKNOWN : Int := 0
def CAR : Int := 1
def TRUCK : Int := 2
def BUS : Int := 3
def MOTORCYCLE : Int := 4

/-- VehicleType.to_string: the dict literal keyed 0..4 looked up with
default value UNKNOWN, exactly as in the Python source. -/
def to_string (value : Int) : String :=
  if value = 0 then "UNKNOWN"
  else if value = 1 then "CAR"
  else if value = 2 then "TRUCK"
  else if value = 3 then "BUS"
  else if value = 4 then "MOTORCYCLE"
  else "UNKNOWN"

end VehicleType

/-- An absolute UTC timestamp, as produced by
datetime.fromtimestamp(ms / 1000.0, tz=timezone.utc). -/
structure UtcTime where
  year : Int
  month : Nat
  day : Nat
  hour : Nat
  minute : Nat
  second : Nat
  millisecond : Nat
deriving DecidableEq, Repr

/-- Proleptic Gregorian civil date from a count of days since 1970-01-01
(the standard civil-from-days algorithm, as used by datetime). -/
def civilFromDays (z : Int) : Int × Nat × Nat :=
  let zs := z + 719468
  let era := zs.fdiv 146097
  let doe := (zs - era * 146097).toNat
  let yoe := (doe - doe / 1460 + doe / 36524 - doe / 146096) / 365
  let doy := doe - (365 * yoe + yoe / 4 - yoe / 100)
  let mp := (5 * doy + 2) / 153
  let d := doy - (153 * mp + 2) / 5 + 1
  let m := if mp < 10 then mp + 3 else mp - 9
  let y := (yoe : Int) + era * 400
  (if m ≤ 2 then y + 1 else y, m, d)

/-- datetime.fromtimestamp(ms / 1000.0, tz=timezone.utc), with the
division carried out exactly over the integers: the millisecond count is
split into whole days, the second of the day, and the millisecond part. -/
def epochMillisToUtc (ms : Int) : UtcTime :=
  let s := ms.fdiv 1000
  let milli := (ms - s * 1000).toNat
  let days := s.fdiv 86400
  let sod := (s - days * 86400).toNat
  let c := civilFromDays days
  { year := c.1, month := c.2.1, day := c.2.2,
    hour := sod / 3600, minute := sod % 3600 / 60, second := sod % 60,
    millisecond := milli }

/-- One raw server-pushed message, with the wire fields read by the
receive loop (ip, veh, lat, lon, spd, hdg, trnTyp, tm, svrtm, msg). -/
structure GddsMessage where
  ip : String
  veh : String
  lat : Rat
  lon : Rat
  spd : Rat
  hdg : Rat
  trnTyp : Int
  tm : Int
  svrtm : Int
  msg : String
deriving DecidableEq, Repr

/-- The decoded record as handed to the sink (the print statement): the
vehicle-type code mapped through the table and both millisecond-epoch
fields converted to absolute UTC timestamps. -/
structure LocationRecord where
  ip : String
  veh : String
  lat : Rat
  lon : Rat
  spd : Rat
  hdg : Rat
  transitMode : String
  timestamp : UtcTime
  serverTimestamp : UtcTime
  msg : String
deriving DecidableEq, Repr

/-- Field decoding done in the body of the receive loop for each message. -/
def decodeMessage (m : GddsMessage) : LocationRecord :=
  { ip := m.ip, veh := m.veh, lat := m.lat, lon := m.lon,
    spd := m.spd, hdg := m.hdg,
    transitMode := VehicleType.to_string m.trnTyp,
    timestamp := epochMillisToUtc m.tm,
    serverTimestamp := epochMillisToUtc m.svrtm,
    msg := m.msg }

/-- The distinct user-visible classifications of a mid-stream RpcError,
one per branch of the except clause in start_receiving. -/
inductive FailureKind where
  | authRejected
  | peerCancelled
  | streamError (cause : RpcError)
deriving DecidableEq, Repr

/-- The except-clause of start_receiving: CANCELLED is tested first, then
UNAUTHENTICATED, and every other status code falls to the generic branch
that prints the original error. -/
def classifyRpcError (e : RpcError) : FailureKind :=
  if e.code = StatusCode.cancelled then FailureKind.peerCancelled
  else if e.code = StatusCode.unauthenticated then FailureKind.authRejected
  else FailureKind.streamError e

/-- How the receive loop exits. invalidState is the RuntimeError raised
before any network call when no client id is set; completed is normal
end of stream; cancelled is the break on the stop flag; failed carries
the classification of a raised RpcError. -/
inductive SessionOutcome where
  | invalidState
  | completed
  | cancelled
  | failed (k : FailureKind)
deriving DecidableEq, Repr

/-- Observable events of one run of the receive loop, in order: each
message is pulled from the response iterator, then either the stop flag
is observed set (break) or the decoded record is handed to the sink;
after the last message the stream ends normally or raises. -/
inductive StreamEvent where
  | pulled (m : GddsMessage)
  | delivered (r : LocationRecord)
  | stopObserved
  | streamEnd
  | streamErr (e : RpcError)
deriving DecidableEq, Repr

/-- The records a trace handed to the sink, in trace order. -/
def deliveredRecords (tr : List StreamEvent) : List LocationRecord :=
  tr.filterMap fun ev =>
    match ev with
    | StreamEvent.delivered r => some r
    | _ => none

/-- The for-loop of start_receiving. `msgs` is the sequence of records
the server will push; `term` tells whether the stream then ends normally
(none) or raises an RpcError (some e). `stopAt i` is the value of the
shared stop flag read by the check that runs after the i-th record is
pulled and before it is delivered. Recursion shifts the schedule, so
`stopAt 0` is always the next check. -/
def receiveLoop (stopAt : Nat → Bool) :
    List GddsMessage → Option RpcError → List StreamEvent × SessionOutcome
  | [], none => ([StreamEvent.streamEnd], SessionOutcome.completed)
  | [], some e =>
      ([StreamEvent.streamErr e], SessionOutcome.failed (classifyRpcError e))
  | m :: rest, term =>
      if stopAt 0 then
        ([StreamEvent.pulled m, StreamEvent.stopObserved],
         SessionOutcome.cancelled)
      else
        let r := receiveLoop (fun j => stopAt (j + 1)) rest term
        (StreamEvent.pulled m :: StreamEvent.delivered (decodeMessage m) :: r.1,
         r.2)

/-- The state of a GddsClient instance: the constructor arguments and the
two mutable resources (client id, stop event) plus whether the channel is
still open. -/
structure GddsClient where
  server_address : String
  client_id : Option String
  stop_event : Bool
  channel_open : Bool
deriving DecidableEq, Repr

/-- Python truthiness of self.client_id: None and the empty string are
falsy, every other string is truthy. -/
def clientIdFalsy : Option String → Bool
  | none => true
  | some s => s.isEmpty

/-- GddsClient.__init__: an empty (falsy) server address raises ValueError
before the channel is created; otherwise the client starts with no client
id, the stop event clear, and an open channel. -/
def GddsClient.init (server_address : String) : Except String GddsClient :=
  if server_address.isEmpty then
    Except.error "Server address is required"
  else
    Except.ok { server_address := server_address, client_id := none,
                stop_event := false, channel_open := true }

/-- Result of one call to start_receiving: the event trace, the outcome,
and the client state afterwards. -/
structure ReceiveResult where
  trace : List StreamEvent
  outcome : SessionOutcome
  finalClient : GddsClient
deriving DecidableEq, Repr

/-- GddsClient.start_receiving. With a falsy client id it raises
RuntimeError before any network call (the result does not depend on the
stream at all); otherwise it runs the receive loop, and on the RpcError
path the except clause sets the stop event. -/
def start_receiving (c : GddsClient) (stopAt : Nat → Bool)
    (msgs : List GddsMessage) (term : Option RpcError) : ReceiveResult :=
  if clientIdFalsy c.client_id then
    { trace := [], outcome := SessionOutcome.invalidState, finalClient := c }
  else
    let r := receiveLoop stopAt msgs term
    match r.2 with
    | SessionOutcome.failed _ =>
        { trace := r.1, outcome := r.2,
          finalClient := { c with stop_event := true } }
    | _ => { trace := r.1, outcome := r.2, finalClient := c }

/-- The value GddsClient.terminate reports: the early no-op return when no
client id is set, or the result of the unary Terminate call (success flag,
and the transport error when the call raised). -/
inductive TerminationOutcome where
  | nothingToTerminate
  | result (success : Bool) (cause : Option RpcError)
deriving DecidableEq, Repr

/-- GddsClient.terminate. `callResult` is what the unary Terminate RPC
would produce (the response success flag, or a raised RpcError). With a
falsy client id the method returns before the call is made, so the result
ignores callResult and the state is untouched. On every path through the
call, the stop event is set. -/
def terminate (c : GddsClient) (callResult : Except RpcError Bool) :
    TerminationOutcome × GddsClient :=
  if clientIdFalsy c.client_id then
    (TerminationOutcome.nothingToTerminate, c)
  else
    match callResult with
    | Except.ok ok =>
        (TerminationOutcome.result ok none, { c with stop_event := true })
    | Except.error e =>
        (TerminationOutcome.result false (some e),
         { c with stop_event := true })

/-- GddsClient.close: sets the stop event and closes the channel; runs on
every exit of the with-block in main. -/
def close (c : GddsClient) : GddsClient :=
  { c with stop_event := true, channel_open := false }

/-- A concrete server message used to instantiate theorems. -/
def sampleMsgA : GddsMessage :=
  { ip := "10.0.0.1", veh := "veh-1", lat := 1, lon := 2, spd := 5,
    hdg := 90, trnTyp := 1, tm := 0, svrtm := 0, msg := "hello" }

/-- A second concrete server message used to instantiate theorems. -/
def sampleMsgB : GddsMessage :=
  { ip := "10.0.0.2", veh := "veh-2", lat := 3, lon := 4, spd := 6,
    hdg := 180, trnTyp := 2, tm := 1000, svrtm := 1500, msg := "world" }

/-- A concrete transport error used to instantiate theorems. -/
def sampleErr : RpcError :=
  { code := StatusCode.unavailable, details := "connection reset" }

/-- A client that has obtained a client id. -/
def sampleClient : GddsClient :=
  { server_address := "localhost:50051", client_id := some "client-1",
    stop_event := false, channel_open := true }

/-- A freshly constructed client: no client id yet. -/
def idleClient : GddsClient :=
  { server_address := "localhost:50051", client_id := none,
    stop_event := false, channel_open := true }

/-- A stop-flag schedule that never signals. -/
def neverStop : Nat → Bool := fun _ => false

/-- A stop-flag schedule that is clear at check 0 and set from check 1 on:
the flag is raised after the first record is delivered. -/
def stopAfterFirst : Nat → Bool := fun i => decide (1 ≤ i)

/-! Helper lemmas about the receive loop. -/

lemma deliveredRecords_nil : deliveredRecords [] = [] := rfl

lemma deliveredRecords_cons_pulled (m : GddsMessage) (tr : List StreamEvent) :
    deliveredRecords (StreamEvent.pulled m :: tr) = deliveredRecords tr := by
  simp [deliveredRecords]

lemma deliveredRecords_cons_delivered (r : LocationRecord)
    (tr : List StreamEvent) :
    deliveredRecords (StreamEvent.delivered r :: tr) =
      r :: deliveredRecords tr := by
  simp [deliveredRecords]

lemma deliveredRecords_cons_stop (tr : List StreamEvent) :
    deliveredRecords (StreamEvent.stopObserved :: tr) = deliveredRecords tr := by
  simp [deliveredRecords]

lemma deliveredRecords_cons_end (tr : List StreamEvent) :
    deliveredRecords (StreamEvent.streamEnd :: tr) = deliveredRecords tr := by
  simp [deliveredRecords]

lemma deliveredRecords_cons_err (e : RpcError) (tr : List StreamEvent) :
    deliveredRecords (StreamEvent.streamErr e :: tr) = deliveredRecords tr := by
  simp [deliveredRecords]

/-- With the stop flag never set, the loop pulls every message and hands
its decoded record to the sink immediately, before the next pull, and the
run completes normally at end of stream. -/
lemma receiveLoop_no_stop (msgs : List GddsMessage) :
    ∀ stopAt : Nat → Bool, (∀ i, stopAt i = false) →
      receiveLoop stopAt msgs none =
        (msgs.flatMap (fun m =>
            [StreamEvent.pulled m, StreamEvent.delivered (decodeMessage m)]) ++
          [StreamEvent.streamEnd],
         SessionOutcome.completed) := by
  induction msgs with
  | nil => intro stopAt h; rfl
  | cons m rest ih =>
    intro stopAt h
    simp only [receiveLoop, h 0, Bool.false_eq_true, if_false]
    rw [ih (fun j => stopAt (j + 1)) (fun j => h (j + 1))]
    simp

/-- With the stop flag never set and a stream that raises, the loop exits
with the classified failure. -/
lemma receiveLoop_err_no_stop (msgs : List GddsMessage) :
    ∀ stopAt : Nat → Bool, (∀ i, stopAt i = false) → ∀ e : RpcError,
      (receiveLoop stopAt msgs (some e)).2 =
        SessionOutcome.failed (classifyRpcError e) := by
  induction msgs with
  | nil => intro stopAt h e; rfl
  | cons m rest ih =>
    intro stopAt h e
    simp only [receiveLoop, h 0, Bool.false_eq_true, if_false]
    exact ih (fun j => stopAt (j + 1)) (fun j => h (j + 1)) e

/-- Whatever the stop-flag schedule, the records handed to the sink are a
prefix of the pushed messages, decoded, in order. -/
lemma receiveLoop_delivered_prefix (msgs : List GddsMessage) :
    ∀ (stopAt : Nat → Bool) (term : Option RpcError),
      ∃ k, deliveredRecords (receiveLoop stopAt msgs term).1 =
        (msgs.take k).map decodeMessage := by
  induction msgs with
  | nil =>
    intro stopAt term
    refine ⟨0, ?_⟩
    cases term <;> rfl
  | cons m rest ih =>
    intro stopAt term
    by_cases h : stopAt 0 = true
    · refine ⟨0, ?_⟩
      simp [receiveLoop, h, deliveredRecords]
    · obtain ⟨k, hk⟩ := ih (fun j => stopAt (j + 1)) term
      refine ⟨k + 1, ?_⟩
      simp only [Bool.not_eq_true] at h
      simp only [receiveLoop, h, Bool.false_eq_true, if_false]
      rw [deliveredRecords_cons_pulled, deliveredRecords_cons_delivered, hk]
      simp

/-- If checks 0..n read the flag clear and check n+1 reads it set, the
loop delivers exactly the first n+1 records and exits cancelled. -/
lemma receiveLoop_cancel_between :
    ∀ (n : Nat) (msgs : List GddsMessage) (stopAt : Nat → Bool)
      (term : Option RpcError),
      n + 1 < msgs.length → (∀ i, i ≤ n → stopAt i = false) →
      stopAt (n + 1) = true →
      deliveredRecords (receiveLoop stopAt msgs term).1 =
        (msgs.take (n + 1)).map decodeMessage ∧
      (receiveLoop stopAt msgs term).2 = SessionOutcome.cancelled := by
  intro n
  induction n with
  | zero =>
    intro msgs stopAt term hlen hbefore hset
    rcases msgs with _ | ⟨m0, _ | ⟨m1, rest⟩⟩
    · simp at hlen
    · simp at hlen
    · have h0 : stopAt 0 = false := hbefore 0 (Nat.le_refl 0)
      simp only [receiveLoop, h0, hset, Bool.false_eq_true, if_false, if_true]
      rw [deliveredRecords_cons_pulled, deliveredRecords_cons_delivered,
        deliveredRecords_cons_pulled, deliveredRecords_cons_stop,
        deliveredRecords_nil]
      simp
  | succ n ih =>
    intro msgs stopAt term hlen hbefore hset
    rcases msgs with _ | ⟨m0, rest⟩
    · simp at hlen
    · have h0 : stopAt 0 = false := hbefore 0 (Nat.zero_le _)
      have hrest : n + 1 < rest.length := by
        simp only [List.length_cons] at hlen
        omega
      have hb : ∀ i, i ≤ n → (fun j => stopAt (j + 1)) i = false :=
        fun i hi => hbefore (i + 1) (Nat.succ_le_succ hi)
      have hs : (fun j => stopAt (j + 1)) (n + 1) = true := hset
      obtain ⟨hdel, hout⟩ :=
        ih rest (fun j => stopAt (j + 1)) term hrest hb hs
      constructor
      · simp only [receiveLoop, h0, Bool.false_eq_true, if_false]
        rw [deliveredRecords_cons_pulled, deliveredRecords_cons_delivered,
          hdel]
        simp
      · simp only [receiveLoop, h0, Bool.false_eq_true, if_false]
        exact hout

/-- A run whose stream raises can only end cancelled (flag observed first)
or failed with the classified error. -/
lemma receiveLoop_err_outcome (msgs : List GddsMessage) :
    ∀ (stopAt : Nat → Bool) (e : RpcError),
      (receiveLoop stopAt msgs (some e)).2 = SessionOutcome.cancelled ∨
      (receiveLoop stopAt msgs (some e)).2 =
        SessionOutcome.failed (classifyRpcError e) := by
  induction msgs with
  | nil => intro stopAt e; exact Or.inr rfl
  | cons m rest ih =>
    intro stopAt e
    by_cases h : stopAt 0 = true
    · left
      simp [receiveLoop, h]
    · simp only [Bool.not_eq_true] at h
      simp only [receiveLoop, h, Bool.false_eq_true, if_false]
      exact ih (fun j => stopAt (j + 1)) e

/-- Reading the delivered records off the uninterrupted trace gives the
decoded messages in order. -/
lemma deliveredRecords_flatMap (msgs : List GddsMessage) :
    deliveredRecords (msgs.flatMap (fun m =>
        [StreamEvent.pulled m, StreamEvent.delivered (decodeMessage m)]) ++
      [StreamEvent.streamEnd]) = msgs.map decodeMessage := by
  induction msgs with
  | nil => rfl
  | cons m rest ih =>
    simp only [List.flatMap_cons, List.cons_append, List.append_assoc,
      List.nil_append, List.map_cons]
    rw [deliveredRecords_cons_pulled, deliveredRecords_cons_delivered, ih]

/-! Claim theorems. -/

/-- C1: a mid-stream RpcError is classified into exactly one of three
distinct user-visible outcomes: unauthenticated gives AuthRejected,
cancelled gives PeerCancelled, and any other code gives StreamError
carrying the original error; the receive loop reports the classified
failure, and the three kinds are pairwise distinct, never one generic
failure. -/
theorem gdds_C1_error_classification :
    (∀ e : RpcError, e.code = StatusCode.unauthenticated →
      classifyRpcError e = FailureKind.authRejected) ∧
    (∀ e : RpcError, e.code = StatusCode.cancelled →
      classifyRpcError e = FailureKind.peerCancelled) ∧
    (∀ e : RpcError, e.code ≠ StatusCode.unauthenticated →
      e.code ≠ StatusCode.cancelled →
      classifyRpcError e = FailureKind.streamError e) ∧
    (∀ (stopAt : Nat → Bool) (msgs : List GddsMessage) (e : RpcError),
      (∀ i, stopAt i = false) →
      (receiveLoop stopAt msgs (some e)).2 =
        SessionOutcome.failed (classifyRpcError e)) ∧
    (FailureKind.authRejected ≠ FailureKind.peerCancelled ∧
     (∀ e : RpcError, FailureKind.streamError e ≠ FailureKind.authRejected) ∧
     (∀ e : RpcError, FailureKind.streamError e ≠ FailureKind.peerCancelled)) := by
  refine ⟨?_, ?_, ?_, ?_, ?_, ?_, ?_⟩
  · intro e he
    have hne : e.code ≠ StatusCode.cancelled := by
      rw [he]; intro hc; cases hc
    simp [classifyRpcError, he, hne]
  · intro e he
    simp [classifyRpcError, he]
  · intro e h1 h2
    simp [classifyRpcError, h1, h2]
  · intro stopAt msgs e h
    exact receiveLoop_err_no_stop msgs stopAt h e
  · intro h; cases h
  · intro e h; cases h
  · intro e h; cases h

/-- Witness for C1: concrete errors of each kind, classified through the
theorem. -/
theorem gdds_C1_witness :
    classifyRpcError { code := StatusCode.unauthenticated, details := "bad token" } =
      FailureKind.authRejected ∧
    classifyRpcError { code := StatusCode.cancelled, details := "stopped" } =
      FailureKind.peerCancelled ∧
    classifyRpcError sampleErr = FailureKind.streamError sampleErr ∧
    (receiveLoop neverStop [sampleMsgA] (some sampleErr)).2 =
      SessionOutcome.failed (classifyRpcError sampleErr) := by
  refine ⟨?_, ?_, ?_, ?_⟩
  · exact gdds_C1_error_classification.1 _ rfl
  · exact gdds_C1_error_classification.2.1 _ rfl
  · exact gdds_C1_error_classification.2.2.1 sampleErr
      (by decide) (by decide)
  · exact gdds_C1_error_classification.2.2.2.1 neverStop [sampleMsgA]
      sampleErr (fun i => rfl)

/-- C2: if every check up to the delivery of record n reads the stop flag
clear and the check before record n+1 reads it set, the consumer delivers
exactly records 0..n (record n+1 is not delivered) and the session ends
cancelled, an outcome distinct from every failed outcome. -/
theorem gdds_C2_stop_between_records (n : Nat) (msgs : List GddsMessage)
    (stopAt : Nat → Bool) (term : Option RpcError)
    (hlen : n + 1 < msgs.length)
    (hbefore : ∀ i, i ≤ n → stopAt i = false)
    (hset : stopAt (n + 1) = true) :
    deliveredRecords (receiveLoop stopAt msgs term).1 =
      (msgs.take (n + 1)).map decodeMessage ∧
    (receiveLoop stopAt msgs term).2 = SessionOutcome.cancelled ∧
    ∀ k : FailureKind, SessionOutcome.cancelled ≠ SessionOutcome.failed k := by
  obtain ⟨hdel, hout⟩ :=
    receiveLoop_cancel_between n msgs stopAt term hlen hbefore hset
  exact ⟨hdel, hout, fun k h => by cases h⟩

/-- Witness for C2: with two messages and the flag raised after the first
delivery, only the first decoded record reaches the sink and the run is
cancelled. -/
theorem gdds_C2_witness :
    deliveredRecords (receiveLoop stopAfterFirst [sampleMsgA, sampleMsgB] none).1 =
      ([sampleMsgA, sampleMsgB].take 1).map decodeMessage ∧
    (receiveLoop stopAfterFirst [sampleMsgA, sampleMsgB] none).2 =
      SessionOutcome.cancelled := by
  have h := gdds_C2_stop_between_records 0 [sampleMsgA, sampleMsgB]
    stopAfterFirst none (by decide)
    (fun i hi => by
      have hz : i = 0 := Nat.le_zero.mp hi
      subst hz
      rfl)
    (by decide)
  exact ⟨h.1, h.2.1⟩

/-- C3: delivery is synchronous and in server-send order. In every run the
sink receives a decoded prefix of the pushed messages in order, and when
the flag never interrupts, the trace is exactly pull, deliver, pull,
deliver, ..., stream end: each record is handed to the sink before the
next one is pulled, with no reordering and no buffering beyond the one
pulled record. -/
theorem gdds_C3_in_order_delivery (msgs : List GddsMessage)
    (stopAt : Nat → Bool) :
    (∀ term : Option RpcError,
      ∃ k, deliveredRecords (receiveLoop stopAt msgs term).1 =
        (msgs.take k).map decodeMessage) ∧
    ((∀ i, stopAt i = false) →
      (receiveLoop stopAt msgs none).1 =
        msgs.flatMap (fun m =>
          [StreamEvent.pulled m, StreamEvent.delivered (decodeMessage m)]) ++
          [StreamEvent.streamEnd] ∧
      deliveredRecords (receiveLoop stopAt msgs none).1 =
        msgs.map decodeMessage) := by
  constructor
  · intro term
    exact receiveLoop_delivered_prefix msgs stopAt term
  · intro h
    have hrun := receiveLoop_no_stop msgs stopAt h
    constructor
    · rw [hrun]
    · rw [hrun]
      exact deliveredRecords_flatMap msgs

/-- Witness for C3: the two sample messages, never-stopping flag, normal
end of stream. -/
theorem gdds_C3_witness :
    (receiveLoop neverStop [sampleMsgA, sampleMsgB] none).1 =
      [sampleMsgA, sampleMsgB].flatMap (fun m =>
        [StreamEvent.pulled m, StreamEvent.delivered (decodeMessage m)]) ++
        [StreamEvent.streamEnd] ∧
    deliveredRecords (receiveLoop neverStop [sampleMsgA, sampleMsgB] none).1 =
      [sampleMsgA, sampleMsgB].map decodeMessage :=
  (gdds_C3_in_order_delivery [sampleMsgA, sampleMsgB] neverStop).2
    (fun _ => rfl)

/-- C4: with an established client id, terminate signals the stop flag on
every path: when the call returns success, when it returns failure (the
failure is still reported to the caller), and when the call raises a
transport error (a failure outcome carrying the cause is returned instead
of an escaping exception). -/
theorem gdds_C4_terminate_signals_stop (c : GddsClient)
    (h : clientIdFalsy c.client_id = false) :
    ((terminate c (Except.ok true)).1 = TerminationOutcome.result true none ∧
     (terminate c (Except.ok true)).2.stop_event = true) ∧
    ((terminate c (Except.ok false)).1 = TerminationOutcome.result false none ∧
     (terminate c (Except.ok false)).2.stop_event = true) ∧
    (∀ e : RpcError,
      (terminate c (Except.error e)).1 =
        TerminationOutcome.result false (some e) ∧
      (terminate c (Except.error e)).2.stop_event = true) := by
  refine ⟨⟨?_, ?_⟩, ⟨?_, ?_⟩, fun e => ⟨?_, ?_⟩⟩ <;> simp [terminate, h]

/-- Witness for C4: the sample client with a client id, on all three call
results. -/
theorem gdds_C4_witness :
    (terminate sampleClient (Except.ok true)).2.stop_event = true ∧
    ((terminate sampleClient (Except.ok false)).1 =
       TerminationOutcome.result false none ∧
     (terminate sampleClient (Except.ok false)).2.stop_event = true) ∧
    ((terminate sampleClient (Except.error sampleErr)).1 =
       TerminationOutcome.result false (some sampleErr) ∧
     (terminate sampleClient (Except.error sampleErr)).2.stop_event = true) := by
  have h := gdds_C4_terminate_signals_stop sampleClient rfl
  exact ⟨h.1.2, h.2.1, h.2.2 sampleErr⟩

/-- C5: to_string maps codes 0..4 to their exact names and every code
outside that set to UNKNOWN; no code is an error. -/
theorem gdds_C5_vehicle_type_names :
    (VehicleType.to_string 0 = "UNKNOWN" ∧
     VehicleType.to_string 1 = "CAR" ∧
     VehicleType.to_string 2 = "TRUCK" ∧
     VehicleType.to_string 3 = "BUS" ∧
     VehicleType.to_string 4 = "MOTORCYCLE") ∧
    ∀ v : Int, (v < 0 ∨ 4 < v) → VehicleType.to_string v = "UNKNOWN" := by
  constructor
  · exact ⟨rfl, rfl, rfl, rfl, rfl⟩
  · intro v hv
    simp only [VehicleType.to_string]
    split_ifs with h0 h1 h2 h3 h4 <;> first | rfl | omega

/-- Witness for C5: out-of-range codes on both sides map to UNKNOWN. -/
theorem gdds_C5_witness :
    VehicleType.to_string (-7) = "UNKNOWN" ∧
    VehicleType.to_string 99 = "UNKNOWN" :=
  ⟨gdds_C5_vehicle_type_names.2 (-7) (Or.inl (by decide)),
   gdds_C5_vehicle_type_names.2 99 (Or.inr (by decide))⟩

/-- C6: decoding converts both millisecond-epoch fields to absolute UTC
timestamps before the record is handed on: every delivered record is the
decode of a pushed message, the decode carries epochMillisToUtc of tm and
svrtm, tm = 0 decodes to 1970-01-01T00:00:00Z, and tm = 1000 decodes to
1970-01-01T00:00:01Z. -/
theorem gdds_C6_timestamps :
    (∀ m : GddsMessage,
      (decodeMessage m).timestamp = epochMillisToUtc m.tm ∧
      (decodeMessage m).serverTimestamp = epochMillisToUtc m.svrtm) ∧
    (∀ (stopAt : Nat → Bool) (msgs : List GddsMessage)
       (term : Option RpcError) (r : LocationRecord),
      r ∈ deliveredRecords (receiveLoop stopAt msgs term).1 →
      ∃ m ∈ msgs, r = decodeMessage m) ∧
    epochMillisToUtc 0 =
      { year := 1970, month := 1, day := 1, hour := 0, minute := 0,
        second := 0, millisecond := 0 } ∧
    epochMillisToUtc 1000 =
      { year := 1970, month := 1, day := 1, hour := 0, minute := 0,
        second := 1, millisecond := 0 } := by
  refine ⟨fun m => ⟨rfl, rfl⟩, ?_, by decide, by decide⟩
  intro stopAt msgs term r hr
  obtain ⟨k, hk⟩ := receiveLoop_delivered_prefix msgs stopAt term
  rw [hk] at hr
  obtain ⟨m, hm, hdec⟩ := List.mem_map.mp hr
  exact ⟨m, List.mem_of_mem_take hm, hdec.symm⟩

/-- Witness for C6: in the concrete two-message run, the second delivered
record is the decode of the second pushed message. -/
theorem gdds_C6_witness :
    ∃ m ∈ [sampleMsgA, sampleMsgB], decodeMessage sampleMsgB = decodeMessage m :=
  gdds_C6_timestamps.2.1 neverStop [sampleMsgA, sampleMsgB] none
    (decodeMessage sampleMsgB)
    (by
      rw [receiveLoop_no_stop [sampleMsgA, sampleMsgB] neverStop
        (fun _ => rfl), deliveredRecords_flatMap]
      simp)

/-- C7: start_receiving with an absent or empty client id fails with the
invalid-state outcome, unchanged state and an empty trace, independent of
the stream and the stop flag, hence before any network call; None and the
empty string are exactly the falsy keys. -/
theorem gdds_C7_requires_session_key (c : GddsClient) (stopAt : Nat → Bool)
    (msgs : List GddsMessage) (term : Option RpcError)
    (h : clientIdFalsy c.client_id = true) :
    start_receiving c stopAt msgs term =
      { trace := [], outcome := SessionOutcome.invalidState,
        finalClient := c } ∧
    clientIdFalsy none = true ∧ clientIdFalsy (some "") = true := by
  refine ⟨?_, rfl, rfl⟩
  simp [start_receiving, h]

/-- Witness for C7: the idle client against a non-empty stream that would
raise. -/
theorem gdds_C7_witness :
    start_receiving idleClient neverStop [sampleMsgA] (some sampleErr) =
      { trace := [], outcome := SessionOutcome.invalidState,
        finalClient := idleClient } :=
  (gdds_C7_requires_session_key idleClient neverStop [sampleMsgA]
    (some sampleErr) rfl).1

/-- C8: terminate with no client id ever set is a no-op: the result is the
distinguished nothing-to-terminate outcome, the state is unchanged, the
would-be call result is never consulted (no network contact), and that
outcome is distinct from every call-result outcome. -/
theorem gdds_C8_terminate_noop (c : GddsClient)
    (callResult : Except RpcError Bool)
    (h : clientIdFalsy c.client_id = true) :
    terminate c callResult = (TerminationOutcome.nothingToTerminate, c) ∧
    ∀ (b : Bool) (o : Option RpcError),
      TerminationOutcome.nothingToTerminate ≠ TerminationOutcome.result b o := by
  refine ⟨?_, fun b o hc => by cases hc⟩
  simp [terminate, h]

/-- Witness for C8: the idle client, with a transport error standing by
that is never raised. -/
theorem gdds_C8_witness :
    terminate idleClient (Except.error sampleErr) =
      (TerminationOutcome.nothingToTerminate, idleClient) :=
  (gdds_C8_terminate_noop idleClient (Except.error sampleErr) rfl).1

/-- C9: every mid-stream failure run ends cleanly: the outcome is a value
(cancelled, or the classified failure: no exception escapes), on the
failed outcome the stop event is set, and close afterwards leaves the stop
event set and the channel released. -/
theorem gdds_C9_clean_stop (c : GddsClient) (stopAt : Nat → Bool)
    (msgs : List GddsMessage) (e : RpcError)
    (h : clientIdFalsy c.client_id = false) :
    ((start_receiving c stopAt msgs (some e)).outcome =
       SessionOutcome.cancelled ∨
     (start_receiving c stopAt msgs (some e)).outcome =
       SessionOutcome.failed (classifyRpcError e)) ∧
    ((start_receiving c stopAt msgs (some e)).outcome =
       SessionOutcome.failed (classifyRpcError e) →
     (start_receiving c stopAt msgs (some e)).finalClient.stop_event = true) ∧
    (close (start_receiving c stopAt msgs (some e)).finalClient).stop_event =
      true ∧
    (close (start_receiving c stopAt msgs (some e)).finalClient).channel_open =
      false := by
  have hout := receiveLoop_err_outcome msgs stopAt e
  refine ⟨?_, ?_, rfl, rfl⟩
  · rcases hout with hc | hf
    · left
      simp [start_receiving, h, hc]
    · right
      simp [start_receiving, h, hf]
  · intro hfail
    rcases hout with hc | hf
    · simp [start_receiving, h, hc] at hfail
    · simp [start_receiving, h, hf]

/-- Witness for C9: the sample client, a one-message stream that then
raises the sample transport error. -/
theorem gdds_C9_witness :
    ((start_receiving sampleClient neverStop [sampleMsgA] (some sampleErr)).outcome =
       SessionOutcome.cancelled ∨
     (start_receiving sampleClient neverStop [sampleMsgA]
        (some sampleErr)).outcome =
       SessionOutcome.failed (classifyRpcError sampleErr)) ∧
    (close (start_receiving sampleClient neverStop [sampleMsgA]
        (some sampleErr)).finalClient).stop_event = true ∧
    (close (start_receiving sampleClient neverStop [sampleMsgA]
        (some sampleErr)).finalClient).channel_open = false := by
  have h := gdds_C9_clean_stop sampleClient neverStop [sampleMsgA]
    sampleErr rfl
  exact ⟨h.1, h.2.2.1, h.2.2.2⟩

/-- C10: constructing the client with an empty address is a ValueError
before any channel exists; any non-empty address yields a client with the
stop event clear, no client id, and an open channel. -/
theorem gdds_C10_constructor (s : String) :
    (s.isEmpty = true →
      GddsClient.init s = Except.error "Server address is required") ∧
    (s.isEmpty = false →
      GddsClient.init s =
        Except.ok { server_address := s, client_id := none,
                    stop_event := false, channel_open := true }) := by
  constructor
  · intro h
    simp [GddsClient.init, h]
  · intro h
    simp [GddsClient.init, h]

/-- Witness for C10: the empty address fails, a concrete address succeeds
with the fresh state. -/
theorem gdds_C10_witness :
    GddsClient.init "" = Except.error "Server address is required" ∧
    GddsClient.init "localhost:50051" =
      Except.ok { server_address := "localhost:50051", client_id := none,
                  stop_event := false, channel_open := true } :=
  ⟨(gdds_C10_constructor "").1 rfl,
   (gdds_C10_constructor "localhost:50051").2 rfl⟩

end Gdds
